import Mathlib

/-!
Shallow embedding of the Hermes agent runtime, translated from
src/hermes/core.py, src/hermes/utils.py and src/hermes/providers.py.

External collaborators (the llama_index model classes, the
ChatSummaryMemoryBuffer summarization step, keyword extraction, the
inference capability itself) are modelled as explicit function
parameters.  Python standard-library behaviour that the source relies on
(str.split, str.strip, random.choice, collections.deque with maxlen,
negative-index list slices) is embedded directly, including the
Python quirk that the slice l[-0:] is l[0:], i.e. the whole list.
-/

namespace Hermes

/-- Role of a chat message, as in llama_index MessageRole. -/
inductive MessageRole where
  | user
  | assistant
  | system
  | tool
  deriving DecidableEq

/-- A chat message: a role plus textual content. -/
structure ChatMessage where
  role : MessageRole
  content : String
  deriving DecidableEq

/-- A caller-supplied history entry: a Python dict that may or may not
contain the keys role and content (msg.get returns None when a key is
absent, modelled as an Option). -/
structure HistoryDict where
  role : Option String
  content : Option String
  deriving DecidableEq

/-- The live pairing of provider, model id, credential and temperature
produced by get_model_from_provider in utils.py.  The inference
capability and tokenizer it carries are external and not modelled. -/
structure ModelBinding where
  provider : String
  model : String
  api_key : String
  temperature : ℚ
  deriving DecidableEq

/-- State of one Agent instance (class Agent in core.py).  The field
rebuildCount is specification instrumentation that counts how many times
the ModelBinding has been rebuilt; it has no counterpart in the source
and is read by no modelled operation. -/
structure Agent where
  provider : String
  model : String
  api_keys : List String
  binding : ModelBinding
  temperature : ℚ
  max_chat_history_length : Nat
  token_limit : Nat
  memory : List ChatMessage
  rebuildCount : Nat
  deriving DecidableEq

/-- Randomness and per-turn arguments of one call to Agent.execute:
r drives the uniform credential draw of random.choice. -/
structure TurnInput where
  r : Nat
  input : String
  chat_history : Option (List HistoryDict)
  deriving DecidableEq

deriving instance DecidableEq for Except

/-- Python str.strip character class: space, tab, newline, carriage
return, vertical tab and form feed. -/
def isPySpace (c : Char) : Bool :=
  c = ' ' || c = '\t' || c = '\n' || c = '\r' || c = '\x0b' || c = '\x0c'

/-- Python str.lower, modelled characterwise. -/
def pyLower (s : String) : String := ⟨s.data.map Char.toLower⟩

/-- Python str.upper, modelled characterwise. -/
def pyUpper (s : String) : String := ⟨s.data.map Char.toUpper⟩

/-- Python str.strip with no argument: removes leading and trailing
whitespace. -/
def pyStrip (s : String) : String :=
  ⟨((s.data.dropWhile isPySpace).reverse.dropWhile isPySpace).reverse⟩

/-- Recursion for pySplitComma over the characters, carrying the
reversed current field. -/
def splitCommaAux : List Char → List Char → List String
  | [], acc => [⟨acc.reverse⟩]
  | c :: rest, acc =>
    if c = ',' then ⟨acc.reverse⟩ :: splitCommaAux rest []
    else splitCommaAux rest (c :: acc)

/-- Python str.split(",") : splits at every comma, so the empty string
yields one empty field and adjacent commas yield empty fields. -/
def pySplitComma (s : String) : List String := splitCommaAux s.data []

/-- core.py line 62: api_keys from the comma-separated api_key argument,
with Python None coalesced to the empty string by (api_key or ""),
entries stripped and falsy (empty after strip) entries dropped. -/
def splitApiKeys (api_key : Option String) : List String :=
  ((pySplitComma (api_key.getD "")).map pyStrip).filter (fun k => k ≠ "")

/-- providers.py PROVIDER_KEY_MAPPING: provider name to the ordered list
of environment variable names tried by get_api_key_from_provider. -/
def PROVIDER_KEY_MAPPING : List (String × List String) := [
  ("openai", ["OPENAI_API_KEY", "OPENAI_KEY", "OPEN_AI_KEY", "OPENAI_TOKEN"]),
  ("azure", ["AZURE_OPENAI_API_KEY", "AZURE_OPENAI_KEY", "AZURE_API_KEY", "AZURE_KEY"]),
  ("anthropic", ["ANTHROPIC_API_KEY", "ANTHROPIC_KEY", "CLAUDE_API_KEY", "CLAUDE_KEY"]),
  ("google", ["GOOGLE_API_KEY", "GOOGLE_KEY", "GEMINI_API_KEY", "GEMINI_KEY", "GOOGLE_AI_KEY"]),
  ("gemini", ["GEMINI_API_KEY", "GEMINI_KEY", "GOOGLE_API_KEY", "GOOGLE_KEY"]),
  ("cohere", ["COHERE_API_KEY", "COHERE_KEY", "CO_API_KEY"]),
  ("huggingface", ["HUGGINGFACE_API_KEY", "HUGGINGFACE_TOKEN", "HF_API_KEY", "HF_TOKEN", "HUGGING_FACE_KEY"]),
  ("replicate", ["REPLICATE_API_KEY", "REPLICATE_TOKEN", "REPLICATE_KEY"]),
  ("together", ["TOGETHER_API_KEY", "TOGETHER_KEY", "TOGETHERAI_KEY"]),
  ("mistral", ["MISTRAL_API_KEY", "MISTRAL_KEY", "MISTRALAI_KEY"]),
  ("groq", ["GROQ_API_KEY", "GROQ_KEY"]),
  ("perplexity", ["PERPLEXITY_API_KEY", "PERPLEXITY_KEY", "PPLX_API_KEY"]),
  ("deepseek", ["DEEPSEEK_API_KEY", "DEEPSEEK_KEY"])]

/-- The loop of utils.py lines 114-117: returns the first environment
variable value that is truthy (present and non-empty), else none. -/
def lookupFirstTruthy (env : String → Option String) : List String → Option String
  | [] => none
  | n :: rest =>
    match env n with
    | some v => if v = "" then lookupFirstTruthy env rest else some v
    | none => lookupFirstTruthy env rest

/-- utils.py get_api_key_from_provider: tries the mapped variable names
for the lowered and stripped provider, then falls back to the generic
PROVIDER_API_KEY variable (built from the original provider uppercased),
returning the empty string when nothing is set.  The process environment
os.getenv is the parameter env. -/
def get_api_key_from_provider (env : String → Option String) (provider : String) : String :=
  match PROVIDER_KEY_MAPPING.find? (fun p => p.1 == pyStrip (pyLower provider)) with
  | some p =>
    match lookupFirstTruthy env p.2 with
    | some k => k
    | none => (env (pyUpper provider ++ "_API_KEY")).getD ""
  | none => (env (pyUpper provider ++ "_API_KEY")).getD ""

/-- core.py lines 62-66: the credential pool is the split api_key string,
or, when that yields no credentials, the one-element list holding the
provider environment lookup result (which may be the empty string). -/
def buildApiKeys (env : String → Option String) (provider : String)
    (api_key : Option String) : List String :=
  if (splitApiKeys api_key).isEmpty then [get_api_key_from_provider env provider]
  else splitApiKeys api_key

/-- utils.py get_random_api_key: random.choice raises IndexError on an
empty sequence and otherwise returns the element at the drawn index,
modelled as r modulo the pool size (getD never uses its default here
because the index is then in range). -/
def get_random_api_key (api_keys : List String) (r : Nat) : Except String String :=
  if api_keys.length = 0 then
    Except.error "Cannot choose from an empty sequence"
  else
    Except.ok (api_keys.getD (r % api_keys.length) "")

/-- The provider names accepted by the if/elif chain of
utils.py get_model_from_provider lines 152-185. -/
def SUPPORTED_PROVIDERS : List String :=
  ["openai", "azure", "anthropic", "gemini", "google"]

/-- utils.py get_model_from_provider: a recognized provider yields a
binding of the given credential and temperature; any other provider
raises ValueError (the error string is the exception message).  Import
failures of installed backends are not modelled. -/
def get_model_from_provider (provider model api_key : String)
    (temperature : ℚ) : Except String ModelBinding :=
  if provider ∈ SUPPORTED_PROVIDERS then
    Except.ok { provider := provider, model := model,
                api_key := api_key, temperature := temperature }
  else
    Except.error ("Unsupported provider: " ++ provider)

/-- core.py line 71: self.temperature = max(0.0, min(temperature, 1.0)). -/
def clampTemperature (t : ℚ) : ℚ :=
  max 0 (min t 1)

/-- Spec reading of the temperature rule, written from the words of the
spec (clamp(t, 0.0, 1.0)) to be compared with clampTemperature. -/
def specClampTemperature (t : ℚ) : ℚ :=
  if t < 0 then 0 else if 1 < t then 1 else t

/-- Agent.__init__ (core.py lines 23-94): builds the credential pool,
clamps the temperature, draws one credential and resolves the model
binding; exceptions from the draw or the provider dispatch propagate to
the caller.  Memory starts empty; tools and the FunctionAgent are
external and not modelled. -/
def Agent.construct (env : String → Option String) (r : Nat)
    (provider model : String) (api_key : Option String) (temperature : ℚ)
    (max_chat_history_length token_limit : Nat) : Except String Agent :=
  match get_random_api_key (buildApiKeys env provider api_key) r with
  | Except.error e => Except.error e
  | Except.ok key =>
    match get_model_from_provider provider model key (clampTemperature temperature) with
    | Except.error e => Except.error e
    | Except.ok binding =>
      Except.ok { provider := provider, model := model,
                  api_keys := buildApiKeys env provider api_key,
                  binding := binding, temperature := clampTemperature temperature,
                  max_chat_history_length := max_chat_history_length,
                  token_limit := token_limit, memory := [], rebuildCount := 0 }

/-- core.py lines 147-156: msg.get("role", "user").lower() matched
against user, assistant and system, defaulting to user. -/
def roleOfString (s : Option String) : MessageRole :=
  let role_str := pyLower (s.getD "user")
  if role_str = "user" then MessageRole.user
  else if role_str = "assistant" then MessageRole.assistant
  else if role_str = "system" then MessageRole.system
  else MessageRole.user

/-- core.py _convert_chat_history_to_messages: dict entries become
ChatMessage values in order, with missing content defaulting to the
empty string. -/
def convert_chat_history_to_messages (chat_history : List HistoryDict) : List ChatMessage :=
  if chat_history.isEmpty then []
  else chat_history.map (fun msg =>
    { role := roleOfString msg.role, content := msg.content.getD "" })

/-- Python slice l[-n:].  For n = 0 this is l[0:], the whole list; for
n ≥ 1 it is the last n elements (all of l when n exceeds its length). -/
def pySliceLast (n : Nat) (l : List ChatMessage) : List ChatMessage :=
  if n = 0 then l else l.drop (l.length - n)

/-- core.py lines 319-320: the trim of the managed history, applied only
when the history is strictly longer than max_chat_history_length. -/
def trimManagedHistory (n : Nat) (l : List ChatMessage) : List ChatMessage :=
  if n < l.length then pySliceLast n l else l

/-- collections.deque(iterable, maxlen = n): keeps the last n elements
(all of them when there are at most n). -/
def dequeWithMaxlen (n : Nat) (l : List ChatMessage) : List ChatMessage :=
  l.drop (l.length - n)

/-- The message sequence actually handed to FunctionAgent.run by
core.py lines 316-338: the memory snapshot after the slice trim, wrapped
in a deque bounded by max_chat_history_length. -/
def historyHandedToAgent (n : Nat) (memoryGet : List ChatMessage) : List ChatMessage :=
  dequeWithMaxlen n (trimManagedHistory n memoryGet)

/-- core.py lines 307-309 together with _update_memory_with_history
(lines 245-264): a falsy chat_history (None or the empty list) leaves
memory untouched; otherwise memory is rebuilt from the converted
messages, with the ChatSummaryMemoryBuffer token-budget summarization
modelled by the external parameter summarize. -/
def updateMemoryWithHistory (summarize : List ChatMessage → List ChatMessage)
    (chat_history : Option (List HistoryDict)) (s : Agent) : Agent :=
  match chat_history with
  | none => s
  | some h =>
    if h.isEmpty then s
    else { s with memory := summarize (convert_chat_history_to_messages h) }

/-- core.py lines 316-359: read the managed history from memory, invoke
the inference capability on the enhanced input, and convert any raised
exception into the formatted error string of line 353. -/
def runWithManagedHistory (enhance : String → String)
    (runAgent : String → List ChatMessage → Except String String)
    (input : String) (s2 : Agent) : Agent × String :=
  match runAgent (enhance input)
      (historyHandedToAgent s2.max_chat_history_length s2.memory) with
  | Except.ok resp => (s2, resp)
  | Except.error e => (s2, "Error executing agent: " ++ e)

/-- One turn of Agent.execute (core.py lines 286-359), with debug
printing elided.  When more than one credential is configured the turn
first rebuilds the binding with a fresh credential draw and empties the
memory (the _initialize_memory call inside _update_llm); exceptions at
any step become the formatted error string, never a raised exception. -/
def executeTurn (summarize : List ChatMessage → List ChatMessage)
    (enhance : String → String)
    (runAgent : String → List ChatMessage → Except String String)
    (r : Nat) (input : String) (chat_history : Option (List HistoryDict))
    (s : Agent) : Agent × String :=
  if 1 < s.api_keys.length then
    match get_random_api_key s.api_keys r with
    | Except.error e => (s, "Error executing agent: " ++ e)
    | Except.ok key =>
      match get_model_from_provider s.provider s.model key s.temperature with
      | Except.error e => (s, "Error executing agent: " ++ e)
      | Except.ok b =>
        runWithManagedHistory enhance runAgent input
          (updateMemoryWithHistory summarize chat_history
            { s with binding := b, memory := [],
                     rebuildCount := s.rebuildCount + 1 })
  else
    runWithManagedHistory enhance runAgent input
      (updateMemoryWithHistory summarize chat_history s)

/-- N executions of the same Agent, folding executeTurn over the
per-turn inputs. -/
def runTurns (summarize : List ChatMessage → List ChatMessage)
    (enhance : String → String)
    (runAgent : String → List ChatMessage → Except String String)
    (ts : List TurnInput) (s : Agent) : Agent :=
  ts.foldl (fun st t =>
    (executeTurn summarize enhance runAgent t.r t.input t.chat_history st).1) s

/-- utils.py create_agent_wrapper lines 205-222: the synthesized tool
bridging a child Agent.  childExecute models
asyncio.run(agent_instance.execute(input_data = query)) and may raise;
str of the response is the String carried on success. -/
def wrapper_function (agentName : String)
    (childExecute : String → Except String String) (query : String) : String :=
  match childExecute query with
  | Except.ok resp => resp
  | Except.error e => "Error consulting " ++ agentName ++ ": " ++ e

/-- Discriminator for Except used by closed evaluation theorems. -/
def exceptIsOk {ε α : Type} : Except ε α → Bool
  | Except.ok _ => true
  | Except.error _ => false

/-- An environment with no variables set, for concrete evaluations. -/
def envNone : String → Option String := fun _ => none

/-- Concrete single-credential Agent equal to the result of
Agent.construct envNone 0 "openai" "m" (some "k") 1 20 2000. -/
def oneKeyAgent : Agent :=
  { provider := "openai", model := "m", api_keys := ["k"],
    binding := { provider := "openai", model := "m", api_key := "k", temperature := 1 },
    temperature := 1, max_chat_history_length := 20, token_limit := 2000,
    memory := [], rebuildCount := 0 }

/-- Concrete two-credential Agent with one message already in memory. -/
def twoKeyAgent : Agent :=
  { provider := "openai", model := "m", api_keys := ["k1", "k2"],
    binding := { provider := "openai", model := "m", api_key := "k1", temperature := 1 },
    temperature := 1, max_chat_history_length := 20, token_limit := 2000,
    memory := [{ role := MessageRole.user, content := "hello" }], rebuildCount := 0 }

/-- An inference capability that always succeeds. -/
def okRun : String → List ChatMessage → Except String String :=
  fun _ _ => Except.ok "ok"

/-- An inference capability reporting the history length. -/
def lenRun : String → List ChatMessage → Except String String :=
  fun _ h => Except.ok (toString h.length)

/-- The same capability, but failing on histories longer than 20; it
agrees with lenRun on all histories of length at most 20. -/
def lenRunBounded : String → List ChatMessage → Except String String :=
  fun _ h => if h.length ≤ 20 then Except.ok (toString h.length)
             else Except.error "history too long"

/-- Two concrete turns for the rotation evaluations. -/
def twoTurns : List TurnInput :=
  [{ r := 0, input := "a", chat_history := none },
   { r := 1, input := "b", chat_history := none }]

/-- A concrete user message for evaluations. -/
def msgA : ChatMessage := { role := MessageRole.user, content := "hi" }

/-- A concrete assistant message for evaluations. -/
def msgB : ChatMessage := { role := MessageRole.assistant, content := "there" }

/-! Helper lemmas about the embedded operations. -/

/-- The state component of runWithManagedHistory is its input state in
both the success and the error branch. -/
lemma runWithManagedHistory_fst (en : String → String)
    (run : String → List ChatMessage → Except String String)
    (input : String) (s2 : Agent) :
    (runWithManagedHistory en run input s2).1 = s2 := by
  unfold runWithManagedHistory
  cases run (en input) (historyHandedToAgent s2.max_chat_history_length s2.memory) with
  | ok resp => rfl
  | error e => rfl

lemma updateMemory_max (sm : List ChatMessage → List ChatMessage)
    (ch : Option (List HistoryDict)) (s : Agent) :
    (updateMemoryWithHistory sm ch s).max_chat_history_length =
      s.max_chat_history_length := by
  unfold updateMemoryWithHistory
  split
  · rfl
  · split <;> rfl

lemma updateMemory_api_keys (sm : List ChatMessage → List ChatMessage)
    (ch : Option (List HistoryDict)) (s : Agent) :
    (updateMemoryWithHistory sm ch s).api_keys = s.api_keys := by
  unfold updateMemoryWithHistory
  split
  · rfl
  · split <;> rfl

lemma updateMemory_provider (sm : List ChatMessage → List ChatMessage)
    (ch : Option (List HistoryDict)) (s : Agent) :
    (updateMemoryWithHistory sm ch s).provider = s.provider := by
  unfold updateMemoryWithHistory
  split
  · rfl
  · split <;> rfl

lemma updateMemory_binding (sm : List ChatMessage → List ChatMessage)
    (ch : Option (List HistoryDict)) (s : Agent) :
    (updateMemoryWithHistory sm ch s).binding = s.binding := by
  unfold updateMemoryWithHistory
  split
  · rfl
  · split <;> rfl

lemma updateMemory_rebuildCount (sm : List ChatMessage → List ChatMessage)
    (ch : Option (List HistoryDict)) (s : Agent) :
    (updateMemoryWithHistory sm ch s).rebuildCount = s.rebuildCount := by
  unfold updateMemoryWithHistory
  split
  · rfl
  · split <;> rfl

/-- A falsy chat_history (None or the empty list) leaves the state
untouched. -/
lemma updateMemory_falsy (sm : List ChatMessage → List ChatMessage)
    (ch : Option (List HistoryDict)) (s : Agent)
    (hch : ch = none ∨ ch = some []) :
    updateMemoryWithHistory sm ch s = s := by
  rcases hch with h | h <;> subst h <;> rfl

/-- The deque bound: the handed history never exceeds n entries. -/
lemma length_handed_le (n : Nat) (mem : List ChatMessage) :
    (historyHandedToAgent n mem).length ≤ n := by
  unfold historyHandedToAgent dequeWithMaxlen
  rw [List.length_drop]
  omega

/-- The slice trim returns a suffix of its input. -/
lemma trim_suffix (n : Nat) (l : List ChatMessage) :
    trimManagedHistory n l <:+ l := by
  unfold trimManagedHistory pySliceLast
  by_cases h1 : n < l.length
  · rw [if_pos h1]
    by_cases h0 : n = 0
    · rw [if_pos h0]
    · rw [if_neg h0]
      exact List.drop_suffix _ _
  · rw [if_neg h1]

/-- The handed history is a suffix of the memory snapshot. -/
lemma handed_suffix (n : Nat) (mem : List ChatMessage) :
    historyHandedToAgent n mem <:+ mem :=
  (List.drop_suffix _ _).trans (trim_suffix n mem)

/-- On a non-empty pool, the draw succeeds and returns the element at
the drawn index. -/
lemma get_random_ok (l : List String) (r : Nat) (h : 0 < l.length) :
    get_random_api_key l r = Except.ok (l.getD (r % l.length) "") := by
  unfold get_random_api_key
  rw [if_neg (by omega)]

/-- The drawn element belongs to the pool. -/
lemma getD_mod_mem (l : List String) (r : Nat) (h : 0 < l.length) :
    l.getD (r % l.length) "" ∈ l := by
  rw [List.getD_eq_getElem l "" (Nat.mod_lt r h)]
  exact List.getElem_mem _

/-- With at most one credential, a turn is just the memory update
followed by the managed-history run. -/
lemma executeTurn_single_eq (sm : List ChatMessage → List ChatMessage)
    (en : String → String)
    (run : String → List ChatMessage → Except String String)
    (r : Nat) (input : String) (ch : Option (List HistoryDict)) (s : Agent)
    (hk : ¬ 1 < s.api_keys.length) :
    executeTurn sm en run r input ch s =
      runWithManagedHistory en run input (updateMemoryWithHistory sm ch s) := by
  unfold executeTurn
  rw [if_neg hk]

/-- With more than one credential and a supported provider, a turn
first rebinds: it draws the credential at index r modulo the pool size,
installs a fresh binding, empties the memory and bumps the rebuild
counter, then performs the memory update and the run. -/
lemma executeTurn_multi_eq (sm : List ChatMessage → List ChatMessage)
    (en : String → String)
    (run : String → List ChatMessage → Except String String)
    (r : Nat) (input : String) (ch : Option (List HistoryDict)) (s : Agent)
    (hk : 1 < s.api_keys.length) (hsup : s.provider ∈ SUPPORTED_PROVIDERS) :
    executeTurn sm en run r input ch s =
      runWithManagedHistory en run input (updateMemoryWithHistory sm ch
        { s with
            binding := { provider := s.provider, model := s.model,
                         api_key := s.api_keys.getD (r % s.api_keys.length) "",
                         temperature := s.temperature },
            memory := [], rebuildCount := s.rebuildCount + 1 }) := by
  have hgr := get_random_ok s.api_keys r (by omega)
  have hgm : get_model_from_provider s.provider s.model
      (s.api_keys.getD (r % s.api_keys.length) "") s.temperature =
      Except.ok { provider := s.provider, model := s.model,
                  api_key := s.api_keys.getD (r % s.api_keys.length) "",
                  temperature := s.temperature } := by
    unfold get_model_from_provider
    rw [if_pos hsup]
  unfold executeTurn
  rw [if_pos hk]
  split
  · next e he =>
    rw [hgr] at he
    cases he
  · next key hkey =>
    rw [hgr] at hkey
    injection hkey with hkey2
    subst hkey2
    split
    · next e he =>
      rw [hgm] at he
      cases he
    · next b hb =>
      rw [hgm] at hb
      injection hb with hb2
      subst hb2
      rfl

/-- Every turn preserves the credential pool and the provider. -/
lemma executeTurn_preserves (sm : List ChatMessage → List ChatMessage)
    (en : String → String)
    (run : String → List ChatMessage → Except String String)
    (r : Nat) (input : String) (ch : Option (List HistoryDict)) (s : Agent) :
    (executeTurn sm en run r input ch s).1.api_keys = s.api_keys ∧
    (executeTurn sm en run r input ch s).1.provider = s.provider := by
  unfold executeTurn
  by_cases hk : 1 < s.api_keys.length
  · rw [if_pos hk]
    split
    · exact ⟨rfl, rfl⟩
    · split
      · exact ⟨rfl, rfl⟩
      · rw [runWithManagedHistory_fst, updateMemory_api_keys, updateMemory_provider]
        exact ⟨rfl, rfl⟩
  · rw [if_neg hk, runWithManagedHistory_fst, updateMemory_api_keys, updateMemory_provider]
    exact ⟨rfl, rfl⟩

/-- State effect of a multi-credential turn: the rebuild counter is
bumped exactly once and the new binding carries a pool credential. -/
lemma executeTurn_multi_state (sm : List ChatMessage → List ChatMessage)
    (en : String → String)
    (run : String → List ChatMessage → Except String String)
    (r : Nat) (input : String) (ch : Option (List HistoryDict)) (s : Agent)
    (hk : 1 < s.api_keys.length) (hsup : s.provider ∈ SUPPORTED_PROVIDERS) :
    (executeTurn sm en run r input ch s).1.rebuildCount = s.rebuildCount + 1 ∧
    (executeTurn sm en run r input ch s).1.binding.api_key ∈ s.api_keys := by
  rw [executeTurn_multi_eq sm en run r input ch s hk hsup, runWithManagedHistory_fst]
  constructor
  · rw [updateMemory_rebuildCount]
  · rw [updateMemory_binding]
    exact getD_mod_mem s.api_keys r (by omega)

/-- State effect of a single-credential turn: binding and rebuild
counter are untouched. -/
lemma executeTurn_single_state (sm : List ChatMessage → List ChatMessage)
    (en : String → String)
    (run : String → List ChatMessage → Except String String)
    (r : Nat) (input : String) (ch : Option (List HistoryDict)) (s : Agent)
    (hk : ¬ 1 < s.api_keys.length) :
    (executeTurn sm en run r input ch s).1.rebuildCount = s.rebuildCount ∧
    (executeTurn sm en run r input ch s).1.binding = s.binding := by
  rw [executeTurn_single_eq sm en run r input ch s hk, runWithManagedHistory_fst]
  exact ⟨updateMemory_rebuildCount sm ch s, updateMemory_binding sm ch s⟩

lemma runTurns_nil (sm : List ChatMessage → List ChatMessage)
    (en : String → String)
    (run : String → List ChatMessage → Except String String) (s : Agent) :
    runTurns sm en run [] s = s := rfl

lemma runTurns_cons (sm : List ChatMessage → List ChatMessage)
    (en : String → String)
    (run : String → List ChatMessage → Except String String)
    (t : TurnInput) (ts : List TurnInput) (s : Agent) :
    runTurns sm en run (t :: ts) s =
      runTurns sm en run ts (executeTurn sm en run t.r t.input t.chat_history s).1 := by
  unfold runTurns
  rw [List.foldl_cons]

/-- Over any number of turns of a multi-credential Agent, the rebuild
counter grows by exactly the number of turns. -/
lemma runTurns_count_multi (sm : List ChatMessage → List ChatMessage)
    (en : String → String)
    (run : String → List ChatMessage → Except String String) :
    ∀ (ts : List TurnInput) (s : Agent),
      s.provider ∈ SUPPORTED_PROVIDERS → 1 < s.api_keys.length →
      (runTurns sm en run ts s).rebuildCount = s.rebuildCount + ts.length := by
  intro ts
  induction ts with
  | nil => intro s _ _; rw [runTurns_nil]; rfl
  | cons t rest ih =>
    intro s hsup hk
    rw [runTurns_cons]
    have hpres := executeTurn_preserves sm en run t.r t.input t.chat_history s
    have hstep := executeTurn_multi_state sm en run t.r t.input t.chat_history s hk hsup
    rw [ih _ (hpres.2 ▸ hsup) (hpres.1 ▸ hk), hstep.1]
    simp [List.length_cons]
    omega

/-- After at least one turn of a multi-credential Agent, the active
binding carries a credential from the configured pool. -/
lemma runTurns_mem_multi (sm : List ChatMessage → List ChatMessage)
    (en : String → String)
    (run : String → List ChatMessage → Except String String) :
    ∀ (ts : List TurnInput) (s : Agent),
      s.provider ∈ SUPPORTED_PROVIDERS → 1 < s.api_keys.length → ts ≠ [] →
      (runTurns sm en run ts s).binding.api_key ∈ s.api_keys := by
  intro ts
  induction ts with
  | nil => intro s _ _ hne; exact absurd rfl hne
  | cons t rest ih =>
    intro s hsup hk _
    rw [runTurns_cons]
    have hpres := executeTurn_preserves sm en run t.r t.input t.chat_history s
    have hstep := executeTurn_multi_state sm en run t.r t.input t.chat_history s hk hsup
    by_cases hr : rest = []
    · subst hr
      rw [runTurns_nil]
      exact hstep.2
    · have hmem := ih _ (hpres.2 ▸ hsup) (hpres.1 ▸ hk) hr
      rw [hpres.1] at hmem
      exact hmem

/-- Over any number of turns of a single-credential Agent, neither the
rebuild counter nor the binding changes. -/
lemma runTurns_single (sm : List ChatMessage → List ChatMessage)
    (en : String → String)
    (run : String → List ChatMessage → Except String String) :
    ∀ (ts : List TurnInput) (s : Agent), s.api_keys.length = 1 →
      (runTurns sm en run ts s).rebuildCount = s.rebuildCount ∧
      (runTurns sm en run ts s).binding = s.binding := by
  intro ts
  induction ts with
  | nil => intro s _; exact ⟨rfl, rfl⟩
  | cons t rest ih =>
    intro s hk
    rw [runTurns_cons]
    have hpres := executeTurn_preserves sm en run t.r t.input t.chat_history s
    have hstep := executeTurn_single_state sm en run t.r t.input t.chat_history s (by omega)
    have hrest := ih _ (hpres.1 ▸ hk)
    exact ⟨hrest.1.trans hstep.1, hrest.2.trans hstep.2⟩

/-- Congruence: the run result depends on the inference capability only
through histories within the length bound. -/
lemma runWith_congr (en : String → String)
    (runA runB : String → List ChatMessage → Except String String)
    (input : String) (s2 : Agent)
    (h : ∀ q hist, hist.length ≤ s2.max_chat_history_length →
        runA q hist = runB q hist) :
    runWithManagedHistory en runA input s2 =
      runWithManagedHistory en runB input s2 := by
  unfold runWithManagedHistory
  rw [h _ _ (length_handed_le _ _)]

/-- Dichotomy of one managed run: the returned text is the raw success
response or an error-formatted string. -/
lemma runWith_dichotomy (en : String → String)
    (run : String → List ChatMessage → Except String String)
    (input : String) (s2 : Agent) :
    (∃ e, (runWithManagedHistory en run input s2).2 =
        "Error executing agent: " ++ e) ∨
    (∃ q hist resp, run q hist = Except.ok resp ∧
        (runWithManagedHistory en run input s2).2 = resp) := by
  unfold runWithManagedHistory
  cases hr : run (en input) (historyHandedToAgent s2.max_chat_history_length s2.memory) with
  | ok resp => exact Or.inr ⟨_, _, resp, hr, rfl⟩
  | error e => exact Or.inl ⟨e, rfl⟩

/-- Inversion of a successful construction: the pool is the built pool
and the stored temperature is the clamped input. -/
lemma construct_ok_fields (env : String → Option String) (r : Nat)
    (provider model : String) (api_key : Option String) (t : ℚ)
    (n tok : Nat) (a : Agent)
    (h : Agent.construct env r provider model api_key t n tok = Except.ok a) :
    a.api_keys = buildApiKeys env provider api_key ∧
    a.temperature = clampTemperature t := by
  unfold Agent.construct at h
  split at h
  · exact absurd h (by simp)
  · split at h
    · exact absurd h (by simp)
    · injection h with h2
      subst h2
      exact ⟨rfl, rfl⟩

/-- The source clamp max(0, min(t, 1)) agrees with the spec clamp. -/
lemma clampTemperature_eq_spec (t : ℚ) :
    clampTemperature t = specClampTemperature t := by
  unfold clampTemperature specClampTemperature
  by_cases h1 : t < 0
  · rw [if_pos h1, min_eq_left (le_of_lt (lt_trans h1 zero_lt_one)),
      max_eq_left (le_of_lt h1)]
  · rw [if_neg h1]
    by_cases h2 : 1 < t
    · rw [if_pos h2, min_eq_right (le_of_lt h2), max_eq_right zero_le_one]
    · rw [if_neg h2, min_eq_left (not_lt.mp h2), max_eq_right (not_lt.mp h1)]

/-- The built pool always has at least one entry: the split keys when
any survive, else the one-element environment fallback. -/
lemma buildApiKeys_length (env : String → Option String) (provider : String)
    (api_key : Option String) :
    1 ≤ (buildApiKeys env provider api_key).length := by
  unfold buildApiKeys
  by_cases hsk : (splitApiKeys api_key).isEmpty = true
  · rw [if_pos hsk]
    rfl
  · rw [if_neg hsk]
    have h2 : splitApiKeys api_key ≠ [] := by
      simpa using hsk
    have h3 := List.length_pos.mpr h2
    omega

/-- The environment lookup loop finds nothing in an empty environment. -/
lemma lookupFirstTruthy_none (env : String → Option String)
    (henv : ∀ name, env name = none) :
    ∀ names, lookupFirstTruthy env names = none := by
  intro names
  induction names with
  | nil => rfl
  | cons a rest ih =>
    unfold lookupFirstTruthy
    rw [henv a]
    exact ih

/-- In an empty environment the provider lookup returns the empty
string. -/
lemma get_api_key_env_none (env : String → Option String) (provider : String)
    (henv : ∀ name, env name = none) :
    get_api_key_from_provider env provider = "" := by
  unfold get_api_key_from_provider
  split
  · split
    · next k hk =>
      rw [lookupFirstTruthy_none env henv] at hk
      cases hk
    · rw [henv]
      rfl
  · rw [henv]
    rfl

/-! Claim theorems. -/

/-- C1 counterexample: with an api_key string that yields no credentials
and an environment in which every lookup fails, the claim says
construction must fail with a ConfigurationError; in the code the
fallback pool is the one-element list holding the empty string and
construction of an openai Agent succeeds. -/
theorem C1_counterexample :
    exceptIsOk (Agent.construct envNone 0 "openai" "m" (some "") 1 20 2000) = true := by
  decide

/-- C1 amended: when the api_key string yields no non-empty credentials
and every environment lookup returns nothing, the pool after fallback is
the one-element list holding the empty string — never empty — and for a
supported provider construction succeeds with that empty-string
credential instead of raising. -/
theorem C1_pool_fallback_singleton (env : String → Option String) (r : Nat)
    (provider model : String) (api_key : Option String) (t : ℚ) (n tok : Nat)
    (hempty : splitApiKeys api_key = [])
    (henv : ∀ name, env name = none)
    (hsup : provider ∈ SUPPORTED_PROVIDERS) :
    Agent.construct env r provider model api_key t n tok =
      Except.ok { provider := provider, model := model, api_keys := [""],
                  binding := { provider := provider, model := model,
                               api_key := "", temperature := clampTemperature t },
                  temperature := clampTemperature t,
                  max_chat_history_length := n, token_limit := tok,
                  memory := [], rebuildCount := 0 } := by
  have hkey0 : get_api_key_from_provider env provider = "" :=
    get_api_key_env_none env provider henv
  have hkeys : buildApiKeys env provider api_key = [""] := by
    unfold buildApiKeys
    rw [hempty]
    simp [hkey0]
  have hgr : get_random_api_key [""] r = Except.ok "" := by
    rw [get_random_ok [""] r (by simp)]
    simp
  have hgm : get_model_from_provider provider model "" (clampTemperature t) =
      Except.ok { provider := provider, model := model,
                  api_key := "", temperature := clampTemperature t } := by
    unfold get_model_from_provider
    rw [if_pos hsup]
  unfold Agent.construct
  rw [hkeys]
  split
  · next e he =>
    rw [hgr] at he
    cases he
  · next key hkey =>
    rw [hgr] at hkey
    injection hkey with hkey2
    subst hkey2
    split
    · next e he =>
      rw [hgm] at he
      cases he
    · next b hb =>
      rw [hgm] at hb
      injection hb with hb2
      subst hb2
      rfl

/-- C1 witness: the amended statement evaluated at a concrete empty
environment and openai provider. -/
theorem C1_witness :
    Agent.construct envNone 0 "openai" "m" none 1 20 2000 =
      Except.ok { provider := "openai", model := "m", api_keys := [""],
                  binding := { provider := "openai", model := "m",
                               api_key := "", temperature := clampTemperature 1 },
                  temperature := clampTemperature 1,
                  max_chat_history_length := 20, token_limit := 2000,
                  memory := [], rebuildCount := 0 } :=
  C1_pool_fallback_singleton envNone 0 "openai" "m" none 1 20 2000
    (by decide) (fun _ => rfl) (by decide)

/-- C2 counterexample: trimming a one-message history to n = 0 returns
the whole list (the Python slice of the last zero elements is the whole
list), so the output length is 1, not min 0 1 = 0 as the claim
requires. -/
theorem C2_counterexample :
    (trimManagedHistory 0 [msgA]).length ≠ min 0 [msgA].length := by
  decide

/-- C2 amended: for every n ≥ 1 the trim law holds — output length is
min(n, input length) and the output is a suffix of the input — while for
n = 0 the trim returns its input unchanged instead of the empty list. -/
theorem C2_trim_law_amended (n : Nat) (l : List ChatMessage) :
    (1 ≤ n → (trimManagedHistory n l).length = min n l.length ∧
      trimManagedHistory n l <:+ l) ∧
    (n = 0 → trimManagedHistory n l = l) := by
  constructor
  · intro hn
    refine ⟨?_, trim_suffix n l⟩
    unfold trimManagedHistory pySliceLast
    by_cases h1 : n < l.length
    · rw [if_pos h1, if_neg (by omega), List.length_drop]
      omega
    · rw [if_neg h1]
      omega
  · intro h0
    subst h0
    unfold trimManagedHistory pySliceLast
    by_cases h1 : 0 < l.length
    · rw [if_pos h1, if_pos rfl]
    · rw [if_neg h1]

/-- C2 witness: the amended trim law evaluated at n = 1 on a
two-message history. -/
theorem C2_witness :
    (trimManagedHistory 1 [msgA, msgB]).length = min 1 [msgA, msgB].length :=
  ((C2_trim_law_amended 1 [msgA, msgB]).1 (by decide)).1

/-- C3: when the bridged child execution raises, the synthesized wrapper
returns the formatted diagnostic string naming the child agent instead
of propagating the exception (the wrapper is total, so the parent turn
receives a string and does not crash). -/
theorem C3_wrapper_returns_diagnostic (agentName : String)
    (childExecute : String → Except String String) (query e : String)
    (h : childExecute query = Except.error e) :
    wrapper_function agentName childExecute query =
      "Error consulting " ++ agentName ++ ": " ++ e := by
  unfold wrapper_function
  rw [h]

/-- C3 witness: a child that raises boom yields the diagnostic string. -/
theorem C3_witness :
    wrapper_function "A" (fun _ => Except.error "boom") "q" =
      "Error consulting " ++ "A" ++ ": " ++ "boom" :=
  C3_wrapper_returns_diagnostic "A" (fun _ => Except.error "boom") "q" "boom" rfl

/-- C4: the history handed to the inference capability is bounded by
max_chat_history_length and is a suffix of the (post-summarization)
memory; consequently a turn cannot distinguish two inference
capabilities that agree on all histories within the bound. -/
theorem C4_handed_history_bounded
    (summarize : List ChatMessage → List ChatMessage) (enhance : String → String)
    (runA runB : String → List ChatMessage → Except String String)
    (r : Nat) (input : String) (ch : Option (List HistoryDict)) (s : Agent)
    (h : ∀ q hist, hist.length ≤ s.max_chat_history_length →
        runA q hist = runB q hist) :
    executeTurn summarize enhance runA r input ch s =
      executeTurn summarize enhance runB r input ch s ∧
    ∀ (n : Nat) (mem : List ChatMessage),
      (historyHandedToAgent n mem).length ≤ n ∧
      historyHandedToAgent n mem <:+ mem := by
  refine ⟨?_, fun n mem => ⟨length_handed_le n mem, handed_suffix n mem⟩⟩
  unfold executeTurn
  by_cases hk : 1 < s.api_keys.length
  · simp only [if_pos hk]
    split
    · rfl
    · split
      · rfl
      · exact runWith_congr enhance runA runB input _
          (fun q hist hl => h q hist (by rwa [updateMemory_max] at hl))
  · simp only [if_neg hk]
    exact runWith_congr enhance runA runB input _
      (fun q hist hl => h q hist (by rwa [updateMemory_max] at hl))

/-- C4 witness: a capability that fails beyond 20 messages is
indistinguishable from its total counterpart on the two-key Agent whose
bound is 20. -/
theorem C4_witness :
    executeTurn id id lenRun 0 "x" none twoKeyAgent =
      executeTurn id id lenRunBounded 0 "x" none twoKeyAgent :=
  (C4_handed_history_bounded id id lenRun lenRunBounded 0 "x" none twoKeyAgent
    (fun q hist hl => by
      have hl2 : hist.length ≤ 20 := hl
      simp only [lenRun, lenRunBounded]
      rw [if_pos hl2])).1

/-- C5: a turn never surfaces an exception — its text result is either
the raw success response of the inference call or a string of the form
Error executing agent: message. -/
theorem C5_execute_never_raises
    (summarize : List ChatMessage → List ChatMessage) (enhance : String → String)
    (runAgent : String → List ChatMessage → Except String String)
    (r : Nat) (input : String) (ch : Option (List HistoryDict)) (s : Agent) :
    (∃ e, (executeTurn summarize enhance runAgent r input ch s).2 =
        "Error executing agent: " ++ e) ∨
    (∃ q hist resp, runAgent q hist = Except.ok resp ∧
        (executeTurn summarize enhance runAgent r input ch s).2 = resp) := by
  unfold executeTurn
  by_cases hk : 1 < s.api_keys.length
  · rw [if_pos hk]
    split
    · next e he => exact Or.inl ⟨e, rfl⟩
    · next key hkey =>
      split
      · next e he => exact Or.inl ⟨e, rfl⟩
      · next b hb => exact runWith_dichotomy enhance runAgent input _
  · rw [if_neg hk]
    exact runWith_dichotomy enhance runAgent input _

/-- C6: with more than one credential the binding is rebuilt exactly
once per execution — so exactly N times over N executions — and the
rebuilt binding always carries a credential of the configured pool,
while an Agent with exactly one credential never rebuilds its binding. -/
theorem C6_rotation
    (summarize : List ChatMessage → List ChatMessage) (enhance : String → String)
    (runAgent : String → List ChatMessage → Except String String)
    (ts : List TurnInput) (s : Agent)
    (hsup : s.provider ∈ SUPPORTED_PROVIDERS) :
    (1 < s.api_keys.length →
      (runTurns summarize enhance runAgent ts s).rebuildCount =
        s.rebuildCount + ts.length ∧
      (ts ≠ [] →
        (runTurns summarize enhance runAgent ts s).binding.api_key ∈ s.api_keys)) ∧
    (s.api_keys.length = 1 →
      (runTurns summarize enhance runAgent ts s).rebuildCount = s.rebuildCount ∧
      (runTurns summarize enhance runAgent ts s).binding = s.binding) := by
  constructor
  · intro hk
    exact ⟨runTurns_count_multi summarize enhance runAgent ts s hsup hk,
           fun hne => runTurns_mem_multi summarize enhance runAgent ts s hsup hk hne⟩
  · intro hk
    exact runTurns_single summarize enhance runAgent ts s hk

/-- C6 witness: two executions of the two-credential Agent bump the
rebuild counter by exactly two. -/
theorem C6_witness :
    (runTurns id id okRun twoTurns twoKeyAgent).rebuildCount =
      twoKeyAgent.rebuildCount + twoTurns.length :=
  ((C6_rotation id id okRun twoTurns twoKeyAgent (by decide)).1 (by decide)).1

/-- C7: the temperature stored by a successful construction is the
clamp of the input to the interval from 0 to 1; out-of-range values are
clamped, never rejected. -/
theorem C7_temperature_clamped (env : String → Option String) (r : Nat)
    (provider model : String) (api_key : Option String) (t : ℚ)
    (n tok : Nat) (a : Agent)
    (h : Agent.construct env r provider model api_key t n tok = Except.ok a) :
    a.temperature = specClampTemperature t := by
  rw [(construct_ok_fields env r provider model api_key t n tok a h).2,
    clampTemperature_eq_spec]

/-- C7 witness: constructing with temperature 2 stores the clamped
value 1. -/
theorem C7_witness : oneKeyAgent.temperature = specClampTemperature 2 :=
  C7_temperature_clamped envNone 0 "openai" "m" (some "k") 2 20 2000 oneKeyAgent
    (by decide)

/-- C8: after every successful construction the credential pool has at
least one entry (the environment fallback contributes exactly one,
possibly empty, credential), so every draw succeeds and the empty-pool
error branch of get_random_api_key is unreachable. -/
theorem C8_pool_never_empty (env : String → Option String) (r : Nat)
    (provider model : String) (api_key : Option String) (t : ℚ)
    (n tok : Nat) (a : Agent)
    (h : Agent.construct env r provider model api_key t n tok = Except.ok a) :
    1 ≤ a.api_keys.length ∧
    ∀ r2, ∃ k, get_random_api_key a.api_keys r2 = Except.ok k := by
  have hf := (construct_ok_fields env r provider model api_key t n tok a h).1
  have hlen := buildApiKeys_length env provider api_key
  constructor
  · rw [hf]
    exact hlen
  · intro r2
    rw [hf]
    exact ⟨_, get_random_ok (buildApiKeys env provider api_key) r2 (by omega)⟩

/-- C8 witness: the concretely constructed one-key Agent has a
non-empty pool. -/
theorem C8_witness : 1 ≤ oneKeyAgent.api_keys.length :=
  (C8_pool_never_empty envNone 0 "openai" "m" (some "k") 1 20 2000 oneKeyAgent
    (by decide)).1

/-- C9 counterexample: on a two-credential Agent a turn with no
chat_history still replaces the memory — the per-turn rebind
reinitializes it to empty — contradicting the claim that memory is left
unchanged on every call with falsy history. -/
theorem C9_counterexample :
    (executeTurn id id okRun 0 "hi" none twoKeyAgent).1.memory ≠
      twoKeyAgent.memory := by
  decide

/-- C9 amended: for a single-credential Agent (no per-turn rebind), a
turn with falsy chat_history (None or the empty list) leaves the memory
buffer unchanged, and that remaining memory is what feeds the model
call; a multi-credential Agent instead empties its memory during the
rebind. -/
theorem C9_memory_unchanged_single_key
    (summarize : List ChatMessage → List ChatMessage) (enhance : String → String)
    (runAgent : String → List ChatMessage → Except String String)
    (r : Nat) (input : String) (ch : Option (List HistoryDict)) (s : Agent)
    (hk : s.api_keys.length = 1) (hch : ch = none ∨ ch = some []) :
    (executeTurn summarize enhance runAgent r input ch s).1.memory = s.memory := by
  rw [executeTurn_single_eq summarize enhance runAgent r input ch s (by omega),
    runWithManagedHistory_fst, updateMemory_falsy summarize ch s hch]

/-- C9 witness: the one-key Agent keeps its memory across a turn with
no history. -/
theorem C9_witness :
    (executeTurn id id okRun 0 "hi" none oneKeyAgent).1.memory =
      oneKeyAgent.memory :=
  C9_memory_unchanged_single_key id id okRun 0 "hi" none oneKeyAgent
    (by decide) (Or.inl rfl)

/-- C10: history conversion preserves length and order, mapping each
entry elementwise — role strings user, assistant and system map
case-insensitively to their roles, any other or missing role maps to the
user role, and missing content maps to the empty string. -/
theorem C10_convert_history (hist : List HistoryDict) :
    (convert_chat_history_to_messages hist).length = hist.length ∧
    (∀ i, (convert_chat_history_to_messages hist).get? i =
      (hist.get? i).map (fun msg =>
        { role := roleOfString msg.role, content := msg.content.getD "" })) ∧
    roleOfString none = MessageRole.user ∧
    roleOfString (some "USER") = MessageRole.user ∧
    roleOfString (some "Assistant") = MessageRole.assistant ∧
    roleOfString (some "SYSTEM") = MessageRole.system ∧
    roleOfString (some "tool") = MessageRole.user ∧
    roleOfString (some "") = MessageRole.user := by
  have hconv : convert_chat_history_to_messages hist = hist.map (fun msg =>
      { role := roleOfString msg.role, content := msg.content.getD "" }) := by
    unfold convert_chat_history_to_messages
    cases hist with
    | nil => rfl
    | cons a l => rfl
  refine ⟨?_, ?_, by decide, by decide, by decide, by decide, by decide, by decide⟩
  · rw [hconv, List.length_map]
  · intro i
    rw [hconv, List.get?_map]

end Hermes
